import Mathlib

/-!
Verification of the `aoc_runner` command-line tool (src/main.rs).

The program is embedded shallowly: the filesystem is an association list
from paths to file contents, the network is a function from (year, day)
to an optional HTTP response (`none` models a transport failure), the
interactive prompt and the wall clock are explicit parameters, and each
stage of the Rust `run` function (credential load, input fetch-and-cache,
entry-point scaffolding, dispatch) together with the standalone `stub`
function is a Lean function on this state.
-/

namespace AocRunner

/-- A filesystem: an association list from paths to file contents. The
first binding for a path gives its content; a path with no binding does
not exist. -/
abbrev FS := List (String × String)

/-- Content of the file at path `p`, or `none` if it does not exist. -/
def FS.lookup : FS → String → Option String
  | [], _ => none
  | e :: fs, p => if e.1 = p then some e.2 else FS.lookup fs p

/-- Existence test, mirroring `Path::exists`. -/
def FS.existsFile (fs : FS) (p : String) : Bool :=
  (FS.lookup fs p).isSome

/-- Write `c` to path `p`, replacing any previous content (the semantics
of opening with create and truncate, and also of a plain create-write on
a path that does not exist). -/
def FS.setFile (fs : FS) (p c : String) : FS :=
  (p, c) :: fs.filter (fun e => e.1 != p)

/-- Exclusive creation, mirroring `OpenOptions::create_new(true)`: fails
when the path already exists. -/
def FS.createNew (fs : FS) (p c : String) : Option FS :=
  if FS.existsFile fs p then none else some ((p, c) :: fs)

/-- Append `c` to the file at `p`, mirroring an open with `append(true)`
and `create(false)`: fails when the path does not exist. -/
def FS.appendFile (fs : FS) (p c : String) : Option FS :=
  match FS.lookup fs p with
  | none => none
  | some old => some (FS.setFile fs p (old ++ c))

theorem FS.lookup_cons (e : String × String) (fs : FS) (p : String) :
    FS.lookup (e :: fs) p = if e.1 = p then some e.2 else FS.lookup fs p := rfl

theorem FS.filter_eq_self_of_lookup_none (fs : FS) (p : String)
    (h : FS.lookup fs p = none) : fs.filter (fun e => e.1 != p) = fs := by
  induction fs with
  | nil => rfl
  | cons e fs ih =>
    rw [FS.lookup_cons] at h
    by_cases he : e.1 = p
    · simp [he] at h
    · simp only [he, if_neg he] at h
      simp [List.filter_cons, he, ih h]

theorem FS.setFile_of_lookup_none (fs : FS) (p c : String)
    (h : FS.lookup fs p = none) : FS.setFile fs p c = (p, c) :: fs := by
  rw [FS.setFile, FS.filter_eq_self_of_lookup_none fs p h]

theorem FS.lookup_setFile_self (fs : FS) (p c : String) :
    FS.lookup (FS.setFile fs p c) p = some c := by
  simp [FS.setFile, FS.lookup_cons]

theorem FS.lookup_filter_of_ne (fs : FS) (p q : String) (h : q ≠ p) :
    FS.lookup (fs.filter (fun e => e.1 != p)) q = FS.lookup fs q := by
  induction fs with
  | nil => rfl
  | cons e fs ih =>
    by_cases he : e.1 = p
    · have hq : e.1 ≠ q := by rw [he]; exact fun hpq => h hpq.symm
      simp [List.filter_cons, he, FS.lookup_cons, hq, ih, Ne.symm h]
    · by_cases heq : e.1 = q
      · simp [List.filter_cons, he, FS.lookup_cons, heq, h]
      · simp [List.filter_cons, he, FS.lookup_cons, heq, ih, h]

theorem FS.lookup_setFile_ne (fs : FS) (p q c : String) (h : q ≠ p) :
    FS.lookup (FS.setFile fs p c) q = FS.lookup fs q := by
  rw [FS.setFile, FS.lookup_cons, if_neg (Ne.symm h)]
  exact FS.lookup_filter_of_ne fs p q h

/-! ### The credential store (lines 70-99 of main.rs) -/

/-- The credential record: `struct Data { session: String }`. -/
structure Data where
  session : String
deriving DecidableEq

/-- The credential file path: the per-user data directory joined with
`aoc_runner.json`. -/
def dataFilePath (dataDir : String) : String := dataDir ++ "/aoc_runner.json"

/-- The output of `serde_json::to_writer_pretty` on a `Data` value
(two-space indentation, one field). -/
def serializePretty (d : Data) : String :=
  "\x7b\n  \"session\": \"" ++ d.session ++ "\"\n\x7d"

/-- Strip an expected prefix from a character list, or fail. -/
def stripChars : List Char → List Char → Option (List Char)
  | [], cs => some cs
  | _ :: _, [] => none
  | p :: ps, c :: cs => if p = c then stripChars ps cs else none

/-- Deserialization of a `Data` record, inverting `serializePretty`:
accepts the pretty-printed form written by this program. -/
def deserializeData (s : String) : Option Data :=
  match stripChars ("\x7b\n  \"session\": \"").data s.data with
  | none => none
  | some rest =>
    match stripChars ("\"\n\x7d").data.reverse rest.reverse with
    | none => none
    | some mid => some ⟨String.mk mid.reverse⟩

/-- The credential-loading step of `run` (lines 76-99): if the data file
is absent, prompt for the session value, persist the record pretty
printed (open with create, write, truncate) and use it; otherwise read
and deserialize the file, never rewriting it. `promptSession` is the
operator's answer to the interactive prompt. -/
def loadDataStep (dataDir promptSession : String) (fs : FS) :
    FS × Except String Data :=
  if !(FS.existsFile fs (dataFilePath dataDir)) then
    let d : Data := ⟨promptSession⟩
    (FS.setFile fs (dataFilePath dataDir) (serializePretty d), Except.ok d)
  else
    match deserializeData ((FS.lookup fs (dataFilePath dataDir)).getD "") with
    | some d => (fs, Except.ok d)
    | none => (fs, Except.error "Could not read data file")

/-! ### The input fetch-and-cache step (lines 101-135 of main.rs) -/

/-- An HTTP response: status code and body text. -/
structure HttpResponse where
  status : Nat
  body : String

/-- The per-day name `day{day}`. -/
def dayNameFor (day : Nat) : String := "day" ++ toString day

/-- The cache path for a day: `input_dir` joined with `day{day}`. -/
def inputPathFor (inputDir : String) (day : Nat) : String :=
  inputDir ++ "/" ++ dayNameFor day

/-- `reqwest::Response::error_for_status` fails on client-error and
server-error statuses (400 through 599). -/
def isErrorStatus (s : Nat) : Bool := 400 ≤ s && s ≤ 599

/-- The fetch step of `run` (lines 101-135): if the cache file exists,
use it with no network access; otherwise issue one GET (`net year day`;
`none` is a transport failure), fail on an error status, and on success
write the body to the cache path. The returned number counts the network
calls performed. -/
def fetchStep (net : Nat → Nat → Option HttpResponse) (yearArg : Option Nat)
    (currentYear : Nat) (inputDir : String) (day : Nat) (fs : FS) :
    FS × Except String Nat :=
  if FS.existsFile fs (inputPathFor inputDir day) then (fs, Except.ok 0)
  else
    match net (yearArg.getD currentYear) day with
    | none =>
      (fs, Except.error ("Could not fetch the input for day " ++ toString day
        ++ " of AoC " ++ toString (yearArg.getD currentYear)))
    | some resp =>
      if isErrorStatus resp.status then
        (fs, Except.error ("Error accessing the input for day " ++ toString day
          ++ " of AoC " ++ toString (yearArg.getD currentYear)))
      else
        (FS.setFile fs (inputPathFor inputDir day) resp.body, Except.ok 1)

/-! ### Scaffolding (lines 17-44, 137-151 and 174-203 of main.rs) -/

/-- The part of `DAY_EXEC_TEMPLATE` before the `day` placeholder. -/
def DAY_EXEC_TEMPLATE_BEFORE : String := "use aoc_2020::\x7bproblems::"

/-- The part of `DAY_EXEC_TEMPLATE` after the `day` placeholder. -/
def DAY_EXEC_TEMPLATE_AFTER : String :=
  "::execute, DayContext\x7d;\n\nfn main() -> color_eyre::Result<()> \x7b\n    let mut context = DayContext::load()?;\n    execute(&mut context)?;\n    context.report_timings();\n    Ok(())\n\x7d"

/-- The entry-point template constant of main.rs, with its handlebars
placeholder for the day name. -/
def DAY_EXEC_TEMPLATE : String :=
  DAY_EXEC_TEMPLATE_BEFORE ++ "\x7b\x7bday\x7d\x7d" ++ DAY_EXEC_TEMPLATE_AFTER

/-- The handlebars rendering of `DAY_EXEC_TEMPLATE` with `day` bound to
`dayName`: the placeholder is substituted, the rest is verbatim. -/
def renderDayExec (dayName : String) : String :=
  DAY_EXEC_TEMPLATE_BEFORE ++ dayName ++ DAY_EXEC_TEMPLATE_AFTER

/-- The problem-stub template constant of main.rs, written verbatim
(no placeholder). -/
def DAY_PROBLEM_STUB : String :=
  "use crate::DayContext;\n\ntype Input = ();\n\npub fn part_1(_: Input) -> color_eyre::Result<String> \x7b\n    todo!()\n\x7d\n\npub fn part_2(_: Input) -> color_eyre::Result<String> \x7b\n    todo!()\n\x7d\n\npub fn parsing(_: &mut DayContext) -> color_eyre::Result<Input> \x7b\n    ()\n\x7d\n\npub fn execute(context: &mut DayContext) -> color_eyre::Result<()> \x7b\n    let input = parsing(context);\n    context.execute(input, part_1, part_2)\n\x7d"

/-- The entry-point artifact path `src/bin/day{day}.rs`. -/
def entryPointPathFor (day : Nat) : String :=
  "src/bin/" ++ dayNameFor day ++ ".rs"

/-- The entry-point scaffolding step of `run` (lines 137-151): if the
artifact exists, do nothing; otherwise render the template and create
the file exclusively. -/
def ensureEntryPoint (day : Nat) (fs : FS) : FS × Except String Unit :=
  if FS.existsFile fs (entryPointPathFor day) then (fs, Except.ok ())
  else
    match FS.createNew fs (entryPointPathFor day)
        (renderDayExec (dayNameFor day)) with
    | none => (fs, Except.error "Could not open the bin/day file")
    | some fs2 => (fs2, Except.ok ())

/-- The problem-stub path `src/problems/day{day}.rs`. -/
def stubPathFor (day : Nat) : String :=
  "src/problems/" ++ dayNameFor day ++ ".rs"

/-- The shared module index `src/problems/mod.rs`. -/
def modRsPath : String := "src/problems/mod.rs"

/-- The registration line appended to the module index for a day
(faithful to the source, including its unbalanced `cfg` parenthesis). -/
def registrationLine (day : Nat) : String :=
  "#[cfg(feature = \"" ++ dayNameFor day ++ "\"]\npub mod "
    ++ dayNameFor day ++ ";\n"

/-- The `stub` function (lines 174-203): create the stub file
exclusively (failing if it exists), then append the registration line to
the module index, opened with append and create(false). -/
def stub (day : Nat) (fs : FS) : FS × Except String Unit :=
  match FS.createNew fs (stubPathFor day) DAY_PROBLEM_STUB with
  | none => (fs, Except.error "Could not open day stub file")
  | some fs1 =>
    match FS.appendFile fs1 modRsPath (registrationLine day) with
    | none => (fs1, Except.error "Could not open mod file")
    | some fs2 => (fs2, Except.ok ())

/-! ### The execution dispatcher (lines 153-171 of main.rs) -/

/-- The argument list passed to `cargo` by the dispatch step. -/
def dispatchCommand (day part : Nat) (input : String) : List String :=
  ["run", "--release", "--features", dayNameFor day, "--bin", dayNameFor day,
    "--", "--part", toString part, "--input", input]

/-- The dispatch step of `run` (lines 153-171): spawn cargo with the
command line and wait. `spawn` gives the child's exit code, or `none`
when the child could not be spawned; only the latter is an error, and
the exit code itself is discarded. -/
def runDispatch (spawn : List String → Option Int) (day part : Nat)
    (input : String) : Except String Unit :=
  match spawn (dispatchCommand day part input) with
  | none => Except.error "Could not execute the program"
  | some _ => Except.ok ()

/-! ### CLI day resolution (lines 46-52 and 205-216 of main.rs) -/

/-- The `possible_values` list attached to the `--day` argument. -/
def dayPossibleValues : List Nat :=
  [1, 2, 3, 4, 5, 6, 7, 8, 9, 10, 11, 12, 13, 14, 15, 16, 17, 18, 19, 20,
    21, 22, 23, 24]

/-- CLI validation of an explicit `--day` value: accepted exactly when it
is among `possible_values`. -/
def validateDayArg (d : Nat) : Option Nat :=
  if d ∈ dayPossibleValues then some d else none

/-- Day resolution in `main` (line 208): the explicit argument if given,
else the local calendar day of month, unvalidated. -/
def resolveDay (dayArg : Option Nat) (localDayOfMonth : Nat) : Nat :=
  dayArg.getD localDayOfMonth

/-! ### Duration formatting (spec section 4.4) -/

/-- Modelled from the spec: the elapsed-time report lives in the external
crate `aoc_2020` (the generated entry point calls
`DayContext::report_timings`), so its code is not in this repository.
Per the spec's section 4.4, the unit is the largest of seconds,
milliseconds, microseconds and nanoseconds whose threshold (10^9, 10^6,
10^3, else raw nanoseconds) the elapsed value meets. -/
def durationUnit (nanos : Nat) : String :=
  if 1000000000 ≤ nanos then "s"
  else if 1000000 ≤ nanos then "ms"
  else if 1000 ≤ nanos then "us"
  else "ns"

theorem stubPathFor_ne_modRsPath (day : Nat) : stubPathFor day ≠ modRsPath := by
  intro h
  rw [show stubPathFor day = "src/problems/day" ++ toString day ++ ".rs" from rfl,
    show modRsPath = "src/problems/mod.rs" from rfl] at h
  have h2 := congrArg String.data h
  simp at h2

theorem string_append_assoc (a b c : String) : a ++ b ++ c = a ++ (b ++ c) :=
  congrArg String.mk (List.append_assoc a.data b.data c.data)

theorem string_append_empty (a : String) : a ++ "" = a :=
  congrArg String.mk (List.append_nil a.data)

/-! ### Claims about the fetch step -/

/-- Claim C1: for every (year, day) whose cache file already exists under
the input directory with arbitrary content `C`, the fetch step of `run`
performs zero network calls and the input made available to the rest of
the flow (the content at the cache path) is exactly `C`. -/
theorem fetch_cache_hit (net : Nat → Nat → Option HttpResponse)
    (yearArg : Option Nat) (currentYear : Nat) (inputDir : String) (day : Nat)
    (fs : FS) (C : String)
    (h : FS.lookup fs (inputPathFor inputDir day) = some C) :
    fetchStep net yearArg currentYear inputDir day fs = (fs, Except.ok 0) ∧
    FS.lookup (fetchStep net yearArg currentYear inputDir day fs).1
      (inputPathFor inputDir day) = some C := by
  have he : FS.existsFile fs (inputPathFor inputDir day) = true := by
    rw [FS.existsFile, h]; rfl
  have hmain : fetchStep net yearArg currentYear inputDir day fs =
      (fs, Except.ok 0) := by
    unfold fetchStep
    rw [he]
    simp
  exact ⟨hmain, by rw [hmain]; exact h⟩

/-- Witness for claim C1 at a concrete cached state. -/
theorem fetch_cache_hit_witness :
    fetchStep (fun _ _ => none) none 2020 "inputs" 5
        [(inputPathFor "inputs" 5, "C")] =
      ([(inputPathFor "inputs" 5, "C")], Except.ok 0) ∧
    FS.lookup (fetchStep (fun _ _ => none) none 2020 "inputs" 5
        [(inputPathFor "inputs" 5, "C")]).1 (inputPathFor "inputs" 5) =
      some "C" :=
  fetch_cache_hit (fun _ _ => none) none 2020 "inputs" 5
    [(inputPathFor "inputs" 5, "C")] "C" (by simp [FS.lookup_cons])

/-- Claim C4: on a cache miss, when the remote endpoint answers with a
success status and body `B`, the fetch step performs one network call,
writes `B` verbatim to the cache path, and leaves exactly one new file
on disk whose content equals `B` (all other paths are untouched). -/
theorem fetch_cache_miss_success (net : Nat → Nat → Option HttpResponse)
    (yearArg : Option Nat) (currentYear : Nat) (inputDir : String) (day : Nat)
    (fs : FS) (s : Nat) (B : String)
    (hmiss : FS.lookup fs (inputPathFor inputDir day) = none)
    (hnet : net (yearArg.getD currentYear) day = some ⟨s, B⟩)
    (hs : isErrorStatus s = false) :
    fetchStep net yearArg currentYear inputDir day fs =
      ((inputPathFor inputDir day, B) :: fs, Except.ok 1) ∧
    FS.lookup ((inputPathFor inputDir day, B) :: fs)
      (inputPathFor inputDir day) = some B ∧
    (∀ q, q ≠ inputPathFor inputDir day →
      FS.lookup ((inputPathFor inputDir day, B) :: fs) q = FS.lookup fs q) ∧
    ((inputPathFor inputDir day, B) :: fs).length = fs.length + 1 := by
  have he : FS.existsFile fs (inputPathFor inputDir day) = false := by
    rw [FS.existsFile, hmiss]; rfl
  refine ⟨?_, ?_, ?_, rfl⟩
  · unfold fetchStep
    rw [he, hnet]
    simp only [Bool.false_eq_true, if_false, hs,
      FS.setFile_of_lookup_none fs _ _ hmiss]
  · rw [FS.lookup_cons, if_pos rfl]
  · intro q hq
    rw [FS.lookup_cons, if_neg (Ne.symm hq)]

/-- Witness for claim C4 at the spec's concrete scenario (year 2020,
day 5, status 200, empty cache). -/
theorem fetch_cache_miss_success_witness :
    fetchStep (fun _ _ => some ⟨200, "B"⟩) (some 2020) 0 "inputs" 5 [] =
      ([(inputPathFor "inputs" 5, "B")], Except.ok 1) ∧
    FS.lookup [(inputPathFor "inputs" 5, "B")] (inputPathFor "inputs" 5) =
      some "B" ∧
    (∀ q, q ≠ inputPathFor "inputs" 5 →
      FS.lookup [(inputPathFor "inputs" 5, "B")] q = FS.lookup [] q) ∧
    ([(inputPathFor "inputs" 5, "B")] : FS).length = ([] : FS).length + 1 :=
  fetch_cache_miss_success (fun _ _ => some ⟨200, "B"⟩) (some 2020) 0
    "inputs" 5 [] 200 "B" rfl rfl (by decide)

/-- Claim C5: on a cache miss, if the remote endpoint answers with a
non-success status, the fetch step fails with an error whose message
includes the day and the year, and the filesystem is unchanged (no
cache file is created). -/
theorem fetch_error_status (net : Nat → Nat → Option HttpResponse)
    (yearArg : Option Nat) (currentYear : Nat) (inputDir : String) (day : Nat)
    (fs : FS) (s : Nat) (B : String)
    (hmiss : FS.lookup fs (inputPathFor inputDir day) = none)
    (hnet : net (yearArg.getD currentYear) day = some ⟨s, B⟩)
    (hs : isErrorStatus s = true) :
    fetchStep net yearArg currentYear inputDir day fs =
      (fs, Except.error ("Error accessing the input for day " ++ toString day
        ++ " of AoC " ++ toString (yearArg.getD currentYear))) ∧
    (∃ pre post, "Error accessing the input for day " ++ toString day
      ++ " of AoC " ++ toString (yearArg.getD currentYear)
      = pre ++ toString day ++ post) ∧
    (∃ pre post, "Error accessing the input for day " ++ toString day
      ++ " of AoC " ++ toString (yearArg.getD currentYear)
      = pre ++ toString (yearArg.getD currentYear) ++ post) := by
  have he : FS.existsFile fs (inputPathFor inputDir day) = false := by
    rw [FS.existsFile, hmiss]; rfl
  refine ⟨?_, ?_, ?_⟩
  · unfold fetchStep
    rw [he, hnet]
    simp only [Bool.false_eq_true, if_false, hs, if_pos]
  · exact ⟨"Error accessing the input for day ",
      " of AoC " ++ toString (yearArg.getD currentYear),
      string_append_assoc _ _ _⟩
  · exact ⟨"Error accessing the input for day " ++ toString day ++ " of AoC ",
      "", (string_append_empty _).symm⟩

/-- Witness for claim C5 at the spec's concrete scenario (year 2021,
day 1, status 404, empty cache). -/
theorem fetch_error_status_witness :
    fetchStep (fun _ _ => some ⟨404, ""⟩) (some 2021) 0 "inputs" 1 [] =
      ([], Except.error ("Error accessing the input for day " ++ toString 1
        ++ " of AoC " ++ toString ((some 2021).getD 0))) ∧
    (∃ pre post, "Error accessing the input for day " ++ toString 1
      ++ " of AoC " ++ toString ((some 2021).getD 0)
      = pre ++ toString 1 ++ post) ∧
    (∃ pre post, "Error accessing the input for day " ++ toString 1
      ++ " of AoC " ++ toString ((some 2021).getD 0)
      = pre ++ toString ((some 2021).getD 0) ++ post) :=
  fetch_error_status (fun _ _ => some ⟨404, ""⟩) (some 2021) 0 "inputs" 1 []
    404 "" rfl rfl (by decide)

/-! ### Claims about scaffolding -/

/-- Claim C7: for every day whose entry-point artifact already exists
with arbitrary content, the entry-point scaffolding step succeeds and
does not modify that file. -/
theorem ensure_entry_point_frame (day : Nat) (fs : FS) (content : String)
    (h : FS.lookup fs (entryPointPathFor day) = some content) :
    ensureEntryPoint day fs = (fs, Except.ok ()) ∧
    FS.lookup (ensureEntryPoint day fs).1 (entryPointPathFor day) =
      some content := by
  have he : FS.existsFile fs (entryPointPathFor day) = true := by
    rw [FS.existsFile, h]; rfl
  have hmain : ensureEntryPoint day fs = (fs, Except.ok ()) := by
    unfold ensureEntryPoint
    rw [he]
    simp
  exact ⟨hmain, by rw [hmain]; exact h⟩

/-- Witness for claim C7 at the spec's concrete scenario (day 7,
arbitrary pre-existing content). -/
theorem ensure_entry_point_frame_witness :
    ensureEntryPoint 7 [(entryPointPathFor 7, "arbitrary")] =
      ([(entryPointPathFor 7, "arbitrary")], Except.ok ()) ∧
    FS.lookup (ensureEntryPoint 7 [(entryPointPathFor 7, "arbitrary")]).1
      (entryPointPathFor 7) = some "arbitrary" :=
  ensure_entry_point_frame 7 [(entryPointPathFor 7, "arbitrary")] "arbitrary"
    (by simp [FS.lookup_cons])

/-- Claim C2: starting from a state with no stub artifact for the day
and an existing module index, invoking `stub` twice produces exactly one
stub artifact with the template content and appends exactly one
registration line; the second invocation fails at the exclusive stub
creation, changes no file contents, and attempts no registration. -/
theorem stub_idempotent (day : Nat) (fs : FS) (m : String)
    (h1 : FS.lookup fs (stubPathFor day) = none)
    (h2 : FS.lookup fs modRsPath = some m) :
    ∃ fs1, stub day fs = (fs1, Except.ok ()) ∧
      FS.lookup fs1 (stubPathFor day) = some DAY_PROBLEM_STUB ∧
      FS.lookup fs1 modRsPath = some (m ++ registrationLine day) ∧
      stub day fs1 = (fs1, Except.error "Could not open day stub file") := by
  have hne := stubPathFor_ne_modRsPath day
  have he : FS.existsFile fs (stubPathFor day) = false := by
    rw [FS.existsFile, h1]; rfl
  have hcreate : FS.createNew fs (stubPathFor day) DAY_PROBLEM_STUB =
      some ((stubPathFor day, DAY_PROBLEM_STUB) :: fs) := by
    rw [FS.createNew, he]; rfl
  have hlookupMod :
      FS.lookup ((stubPathFor day, DAY_PROBLEM_STUB) :: fs) modRsPath =
        some m := by
    rw [FS.lookup_cons, if_neg hne]; exact h2
  have happend : FS.appendFile ((stubPathFor day, DAY_PROBLEM_STUB) :: fs)
      modRsPath (registrationLine day) =
      some (FS.setFile ((stubPathFor day, DAY_PROBLEM_STUB) :: fs) modRsPath
        (m ++ registrationLine day)) := by
    rw [FS.appendFile, hlookupMod]
  have hstub1 : FS.lookup (FS.setFile ((stubPathFor day, DAY_PROBLEM_STUB)
      :: fs) modRsPath (m ++ registrationLine day)) (stubPathFor day) =
      some DAY_PROBLEM_STUB := by
    rw [FS.lookup_setFile_ne _ _ _ _ hne, FS.lookup_cons, if_pos rfl]
  refine ⟨FS.setFile ((stubPathFor day, DAY_PROBLEM_STUB) :: fs) modRsPath
    (m ++ registrationLine day), ?_, hstub1, FS.lookup_setFile_self _ _ _, ?_⟩
  · unfold stub
    rw [hcreate]
    dsimp only
    rw [happend]
  · have hex : FS.existsFile (FS.setFile ((stubPathFor day, DAY_PROBLEM_STUB)
        :: fs) modRsPath (m ++ registrationLine day)) (stubPathFor day) =
        true := by
      rw [FS.existsFile, hstub1]; rfl
    unfold stub
    rw [FS.createNew, hex]
    simp

/-- Witness for claim C2 at a concrete initial state (day 3, empty
module index, no stub). -/
theorem stub_idempotent_witness :
    ∃ fs1, stub 3 [(modRsPath, "")] = (fs1, Except.ok ()) ∧
      FS.lookup fs1 (stubPathFor 3) = some DAY_PROBLEM_STUB ∧
      FS.lookup fs1 modRsPath = some ("" ++ registrationLine 3) ∧
      stub 3 fs1 = (fs1, Except.error "Could not open day stub file") :=
  stub_idempotent 3 [(modRsPath, "")] "" (by decide) (by decide)

/-- Claim C9: when the module index does not exist, `stub` creates the
stub file, then fails opening the index (create is disabled), returning
an error while the stub file remains on disk unregistered; every
subsequent invocation for that day fails at the exclusive stub creation
with the state unchanged, so the registration line is never appended. -/
theorem stub_mod_index_failure (day : Nat) (fs : FS)
    (h1 : FS.lookup fs (stubPathFor day) = none)
    (h2 : FS.lookup fs modRsPath = none) :
    stub day fs = ((stubPathFor day, DAY_PROBLEM_STUB) :: fs,
      Except.error "Could not open mod file") ∧
    FS.lookup ((stubPathFor day, DAY_PROBLEM_STUB) :: fs) (stubPathFor day)
      = some DAY_PROBLEM_STUB ∧
    FS.lookup ((stubPathFor day, DAY_PROBLEM_STUB) :: fs) modRsPath = none ∧
    (∀ g : FS, FS.existsFile g (stubPathFor day) = true →
      stub day g = (g, Except.error "Could not open day stub file")) := by
  have hne := stubPathFor_ne_modRsPath day
  have he : FS.existsFile fs (stubPathFor day) = false := by
    rw [FS.existsFile, h1]; rfl
  have hcreate : FS.createNew fs (stubPathFor day) DAY_PROBLEM_STUB =
      some ((stubPathFor day, DAY_PROBLEM_STUB) :: fs) := by
    rw [FS.createNew, he]; rfl
  have hlookupMod :
      FS.lookup ((stubPathFor day, DAY_PROBLEM_STUB) :: fs) modRsPath =
        none := by
    rw [FS.lookup_cons, if_neg hne]; exact h2
  have happend : FS.appendFile ((stubPathFor day, DAY_PROBLEM_STUB) :: fs)
      modRsPath (registrationLine day) = none := by
    rw [FS.appendFile, hlookupMod]
  refine ⟨?_, by rw [FS.lookup_cons, if_pos rfl], hlookupMod, ?_⟩
  · unfold stub
    rw [hcreate]
    dsimp only
    rw [happend]
  · intro g hg
    have hcn : FS.createNew g (stubPathFor day) DAY_PROBLEM_STUB = none := by
      rw [FS.createNew, hg]; simp
    unfold stub
    rw [hcn]

/-- Witness for claim C9 at a concrete initial state (day 4, empty
filesystem) and a concrete subsequent state. -/
theorem stub_mod_index_failure_witness :
    stub 4 [] = ([(stubPathFor 4, DAY_PROBLEM_STUB)],
      Except.error "Could not open mod file") ∧
    FS.lookup [(stubPathFor 4, DAY_PROBLEM_STUB)] (stubPathFor 4) =
      some DAY_PROBLEM_STUB ∧
    FS.lookup [(stubPathFor 4, DAY_PROBLEM_STUB)] modRsPath = none ∧
    stub 4 [(stubPathFor 4, DAY_PROBLEM_STUB)] =
      ([(stubPathFor 4, DAY_PROBLEM_STUB)],
        Except.error "Could not open day stub file") := by
  have h := stub_mod_index_failure 4 [] rfl rfl
  exact ⟨h.1, h.2.1, h.2.2.1,
    h.2.2.2 [(stubPathFor 4, DAY_PROBLEM_STUB)] (by decide)⟩

/-! ### Claims about the credential store -/

/-- Claim C6: if the backing file is absent, the operator's prompted
secret is persisted pretty-printed to a newly created file in the data
directory and that same credential is used; if the file is present, its
contents are deserialized and used with the filesystem unchanged (the
stored credential is never mutated in place). -/
theorem credential_load (dataDir sess : String) (fs : FS) :
    (FS.lookup fs (dataFilePath dataDir) = none →
      loadDataStep dataDir sess fs =
        ((dataFilePath dataDir, serializePretty ⟨sess⟩) :: fs,
          Except.ok ⟨sess⟩)) ∧
    (∀ c d, FS.lookup fs (dataFilePath dataDir) = some c →
      deserializeData c = some d →
      loadDataStep dataDir sess fs = (fs, Except.ok d)) := by
  constructor
  · intro h
    have he : FS.existsFile fs (dataFilePath dataDir) = false := by
      rw [FS.existsFile, h]; rfl
    unfold loadDataStep
    rw [he]
    simp only [Bool.not_false, if_true]
    rw [FS.setFile_of_lookup_none fs _ _ h]
  · intro c d hc hd
    have he : FS.existsFile fs (dataFilePath dataDir) = true := by
      rw [FS.existsFile, hc]; rfl
    unfold loadDataStep
    rw [he]
    simp only [Bool.not_true, Bool.false_eq_true, if_false]
    rw [hc]
    simp only [Option.getD_some]
    rw [hd]

/-- Witness for claim C6: a first run creating the store, and a second
run reading it back unchanged. -/
theorem credential_load_witness :
    loadDataStep "home" "tok" [] =
      ([(dataFilePath "home", serializePretty ⟨"tok"⟩)], Except.ok ⟨"tok"⟩) ∧
    loadDataStep "home" "tok"
        [(dataFilePath "home", serializePretty ⟨"tok"⟩)] =
      ([(dataFilePath "home", serializePretty ⟨"tok"⟩)], Except.ok ⟨"tok"⟩) :=
  ⟨(credential_load "home" "tok" []).1 rfl,
    (credential_load "home" "tok"
        [(dataFilePath "home", serializePretty ⟨"tok"⟩)]).2
      (serializePretty ⟨"tok"⟩) ⟨"tok"⟩ (by simp [FS.lookup_cons]) (by decide)⟩

/-! ### Claims about the execution dispatcher -/

/-- Claim C8: for every run of the dispatcher, only a failure to spawn
the child process is an error; when the child spawns and terminates with
any exit status, including non-zero, the dispatcher returns success and
the exit status is not escalated. -/
theorem dispatch_only_spawn_failure (spawn : List String → Option Int)
    (day part : Nat) (input : String) :
    (∀ code : Int, spawn (dispatchCommand day part input) = some code →
      runDispatch spawn day part input = Except.ok ()) ∧
    (spawn (dispatchCommand day part input) = none →
      runDispatch spawn day part input =
        Except.error "Could not execute the program") := by
  constructor
  · intro code hc
    unfold runDispatch
    rw [hc]
  · intro hn
    unfold runDispatch
    rw [hn]

/-- Witness for claim C8: a non-zero exit code is absorbed, a spawn
failure is an error. -/
theorem dispatch_only_spawn_failure_witness :
    runDispatch (fun _ => some 101) 3 1 "inputs/day3" = Except.ok () ∧
    runDispatch (fun _ => none) 3 1 "inputs/day3" =
      Except.error "Could not execute the program" :=
  ⟨(dispatch_only_spawn_failure (fun _ => some 101) 3 1 "inputs/day3").1
      101 rfl,
    (dispatch_only_spawn_failure (fun _ => none) 3 1 "inputs/day3").2 rfl⟩

/-! ### Claims about day resolution and duration formatting -/

/-- Claim C10: an explicit `--day` is validated against 1 through 24,
but an omitted `--day` defaults to the local calendar day-of-month with
no validation, so days 25 to 31 resolve to values the command line would
reject. -/
theorem day_default_bypasses_validation :
    (∀ d : Nat, (validateDayArg d).isSome = true ↔ (1 ≤ d ∧ d ≤ 24)) ∧
    (∀ ld : Nat, resolveDay none ld = ld) ∧
    validateDayArg 25 = none ∧ resolveDay none 25 = 25 := by
  refine ⟨fun d => ?_, fun ld => rfl, by decide, rfl⟩
  have hmem : d ∈ dayPossibleValues ↔ (1 ≤ d ∧ d ≤ 24) := by
    simp [dayPossibleValues]
    omega
  rw [validateDayArg]
  by_cases h : d ∈ dayPossibleValues
  · rw [if_pos h]
    simpa using hmem.mp h
  · rw [if_neg h]
    simpa using fun hd => h (hmem.mpr hd)

/-- Claim C3 counterexample: an elapsed value of exactly 999,999,999
nanoseconds formats in milliseconds, not in microseconds as claimed. -/
theorem duration_999999999_not_us :
    durationUnit 999999999 ≠ "us" ∧ durationUnit 999999999 = "ms" := by
  decide

/-- Claim C3 (amended): duration formatting selects the largest unit
whose threshold the elapsed value meets; 999,999,999 ns formats in
milliseconds, 1,000,000,000 ns in seconds, 500 ns in nanoseconds, and
1,500,000 ns in milliseconds. -/
theorem duration_unit_boundaries :
    durationUnit 999999999 = "ms" ∧ durationUnit 1000000000 = "s" ∧
    durationUnit 500 = "ns" ∧ durationUnit 1500000 = "ms" := by
  decide

end AocRunner
